/-
  Verification of the TGUI widget-toolkit specification against a shallow
  embedding of the library.  The repository snapshot contains only the header
  files (declarations plus their documentation); every definition below that
  embeds behaviour whose implementation file is absent is marked
  "Modelled from the spec:" and follows the documented contract of the
  corresponding declaration in src/include/TGUI.
-/
import Mathlib

namespace TGUI

/-! ### Signals and string-keyed signal dispatch -/

/-- A named signal, as declared by the public signal members of the widgets
(for example `SignalItem onItemSelect = {"ItemSelected"}` in
src/include/TGUI/Widgets/ListBox.hpp). -/
structure Signal where
  name : String
  deriving DecidableEq, Repr

/-- Modelled from the spec: the implementation of `getSignal` (the widget
source files such as src/ListBox.cpp) is absent from the snapshot; the
declarations in ListBox.hpp, RadioButton.hpp and MessageBox.hpp document it as
"Retrieves a signal based on its name ... @return Signal that corresponds to
the name ... @throw Exception when the name does not match any signal".  The
widget's signals are searched in order and the first one whose name equals
`signalName` is returned; an exception value is produced when none matches. -/
def getSignal (signals : List Signal) (signalName : String) : Except String Signal :=
  match signals with
  | [] => Except.error ("Unknown signal name: " ++ signalName)
  | s :: rest => if s.name = signalName then Except.ok s else getSignal rest signalName

/-- The signals declared by ListBox (src/include/TGUI/Widgets/ListBox.hpp,
lines 618-621). -/
def listBoxSignals : List Signal :=
  [⟨"ItemSelected"⟩, ⟨"MousePressed"⟩, ⟨"MouseReleased"⟩, ⟨"DoubleClicked"⟩]

/-- The signals declared by RadioButton (src/include/TGUI/Widgets/RadioButton.hpp,
lines 332-334). -/
def radioButtonSignals : List Signal :=
  [⟨"Checked"⟩, ⟨"Unchecked"⟩, ⟨"Changed"⟩]

/-- The signals declared by MessageBox (src/include/TGUI/Widgets/MessageBox.hpp,
line 247). -/
def messageBoxSignals : List Signal :=
  [⟨"ButtonPressed"⟩]

theorem getSignal_ok_name (signals : List Signal) (signalName : String) (s : Signal)
    (h : getSignal signals signalName = Except.ok s) :
    s.name = signalName ∧ s ∈ signals := by
  induction signals with
  | nil => simp [getSignal] at h
  | cons hd tl ih =>
    by_cases hname : hd.name = signalName
    · simp only [getSignal, hname, if_true] at h
      cases h
      exact ⟨hname, by simp⟩
    · simp only [getSignal, hname, if_false] at h
      rcases ih h with ⟨h1, h2⟩
      exact ⟨h1, by simp [h2]⟩

theorem getSignal_error_iff (signals : List Signal) (signalName : String) :
    (∃ e, getSignal signals signalName = Except.error e) ↔
      signalName ∉ signals.map Signal.name := by
  induction signals with
  | nil => simp [getSignal]
  | cons hd tl ih =>
    by_cases hname : hd.name = signalName
    · simp [getSignal, hname]
    · simp only [getSignal, hname, if_false, List.map_cons, List.mem_cons]
      rw [ih]
      constructor
      · intro h hmem
        rcases hmem with h1 | h2
        · exact hname h1.symm
        · exact h h2
      · intro h hmem
        exact h (Or.inr hmem)

theorem getSignal_ok_of_mem (signals : List Signal) (signalName : String)
    (h : signalName ∈ signals.map Signal.name) :
    ∃ s, getSignal signals signalName = Except.ok s ∧ s.name = signalName := by
  induction signals with
  | nil => simp at h
  | cons hd tl ih =>
    by_cases hname : hd.name = signalName
    · exact ⟨hd, by simp [getSignal, hname], hname⟩
    · simp only [List.map_cons, List.mem_cons] at h
      rcases h with h1 | h2
      · exact absurd h1.symm hname
      · rcases ih h2 with ⟨s, hs1, hs2⟩
        exact ⟨s, by simp [getSignal, hname, hs1], hs2⟩

/-- Claim C1: for every widget that dispatches signals by string name (ListBox,
RadioButton, MessageBox) and every string signalName, getSignal(signalName)
returns the Signal whose name matches signalName, and throws an Exception if
and only if signalName does not match any signal of that widget. -/
theorem claim_C1_getSignal_dispatch :
    ∀ signals ∈ [listBoxSignals, radioButtonSignals, messageBoxSignals],
    ∀ signalName : String,
      (∀ s, getSignal signals signalName = Except.ok s → s.name = signalName ∧ s ∈ signals) ∧
      ((∃ e, getSignal signals signalName = Except.error e) ↔
        signalName ∉ signals.map Signal.name) ∧
      (signalName ∈ signals.map Signal.name →
        ∃ s, getSignal signals signalName = Except.ok s ∧ s.name = signalName) := by
  intro signals _ signalName
  exact ⟨fun s h => getSignal_ok_name signals signalName s h,
         getSignal_error_iff signals signalName,
         getSignal_ok_of_mem signals signalName⟩

/-- Witness for claim C1: dispatching "ItemSelected" on a ListBox finds the
signal of that name, and dispatching an unknown name produces an exception. -/
theorem claim_C1_witness :
    (∃ s, getSignal listBoxSignals "ItemSelected" = Except.ok s ∧
      s.name = "ItemSelected") ∧
    (∃ e, getSignal listBoxSignals "NoSuchSignal" = Except.error e) := by
  constructor
  · exact (claim_C1_getSignal_dispatch listBoxSignals (by simp) "ItemSelected").2.2
      (by simp [listBoxSignals])
  · exact (claim_C1_getSignal_dispatch listBoxSignals (by simp) "NoSuchSignal").2.1.mpr
      (by simp [listBoxSignals])

/-! ### ListBox -/

/-- The observable state of a ListBox, following the member variables of
src/include/TGUI/Widgets/ListBox.hpp (lines 627-651): the items and their ids,
the index of the selected item (-1 when none), the item height, the text size,
the maximum-items limit (0 meaning no limit) and the auto-scroll flag. -/
structure ListBox where
  items : List String
  itemIds : List String
  selectedItem : Int
  itemHeight : Nat
  textSize : Nat
  maxItems : Nat
  autoScroll : Bool
  deriving DecidableEq, Repr

/-- Modelled from the spec: the implementation of `ListBox::addItem`
(src/ListBox.cpp) is absent from the snapshot; the declaration in ListBox.hpp
(lines 112-126) documents it as returning true when the item was added and
false when the list box is full, i.e. when a maximum item limit was set and
adding would exceed it.  The scrollbar is assumed present, so the documented
no-scrollbar overflow case does not apply. -/
def ListBox.addItem (lb : ListBox) (itemName : String) (id : String) : Bool × ListBox :=
  if 0 < lb.maxItems ∧ lb.maxItems ≤ lb.items.length then
    (false, lb)
  else
    (true, { lb with items := lb.items ++ [itemName], itemIds := lb.itemIds ++ [id] })

/-- Modelled from the spec: the implementation of `ListBox::setMaximumItems`
(src/ListBox.cpp) is absent from the snapshot; the declaration in ListBox.hpp
(lines 409-418) documents it as changing the maximum items the list box can
contain, a maximum of 0 disabling the limit; items beyond a newly imposed
limit no longer fit and are discarded. -/
def ListBox.setMaximumItems (lb : ListBox) (maximumItems : Nat) : ListBox :=
  if 0 < maximumItems ∧ maximumItems < lb.items.length then
    { lb with maxItems := maximumItems,
              items := lb.items.take maximumItems,
              itemIds := lb.itemIds.take maximumItems }
  else
    { lb with maxItems := maximumItems }

/-- Applies a sequence of addItem calls (name, id pairs) to a list box. -/
def ListBox.applyAddItems (lb : ListBox) (adds : List (String × String)) : ListBox :=
  adds.foldl (fun s p => (s.addItem p.1 p.2).2) lb

/-! ### RadioButton -/

/-- The observable state of a RadioButton, following the member variables of
src/include/TGUI/Widgets/RadioButton.hpp (lines 340-347): the checked flag,
the text-click flag and the text next to the button. -/
structure RadioButton where
  checked : Bool
  allowTextClick : Bool
  text : String
  deriving DecidableEq, Repr

/-- `RadioButton::isChecked` returns the stored checked flag; its body is in
the header itself (RadioButton.hpp lines 153-156). -/
def RadioButton.isChecked (rb : RadioButton) : Bool :=
  rb.checked

/-! ### The textual save format (DataIO nodes) -/

/-- A property value stored in a node of the textual save format. -/
inductive PropValue where
  | str : String → PropValue
  | num : Nat → PropValue
  | int : Int → PropValue
  | boolean : Bool → PropValue
  | strList : List String → PropValue
  deriving DecidableEq, Repr

/-- A tree node of the textual save format: a list of named property values
(the children subtrees play no role for the leaf widgets modelled here). -/
structure Node where
  properties : List (String × PropValue)
  deriving DecidableEq, Repr

/-- Looks a property up by name in a node. -/
def Node.getProp (n : Node) (name : String) : Option PropValue :=
  (n.properties.find? (fun p => p.1 = name)).map Prod.snd

/-- Modelled from the spec: the implementation of `ListBox::save`
(src/ListBox.cpp) is absent from the snapshot; the declaration in ListBox.hpp
(lines 558-561) documents it as saving the widget as a tree node; the node
records every observable state component of the list box. -/
def ListBox.save (lb : ListBox) : Node :=
  ⟨[("Items", PropValue.strList lb.items),
    ("ItemIds", PropValue.strList lb.itemIds),
    ("SelectedItemIndex", PropValue.int lb.selectedItem),
    ("ItemHeight", PropValue.num lb.itemHeight),
    ("TextSize", PropValue.num lb.textSize),
    ("MaximumItems", PropValue.num lb.maxItems),
    ("AutoScroll", PropValue.boolean lb.autoScroll)]⟩

/-- Modelled from the spec: the implementation of `ListBox::load`
(src/ListBox.cpp) is absent from the snapshot; the declaration in ListBox.hpp
(lines 564-567) documents it as loading the widget from a tree of nodes; each
state component is read back from the saved property of the same name, with
the default-constructed value used when a property is missing. -/
def ListBox.load (n : Node) : ListBox where
  items := match n.getProp "Items" with
    | some (PropValue.strList l) => l
    | _ => []
  itemIds := match n.getProp "ItemIds" with
    | some (PropValue.strList l) => l
    | _ => []
  selectedItem := match n.getProp "SelectedItemIndex" with
    | some (PropValue.int i) => i
    | _ => -1
  itemHeight := match n.getProp "ItemHeight" with
    | some (PropValue.num h) => h
    | _ => 0
  textSize := match n.getProp "TextSize" with
    | some (PropValue.num t) => t
    | _ => 0
  maxItems := match n.getProp "MaximumItems" with
    | some (PropValue.num m) => m
    | _ => 0
  autoScroll := match n.getProp "AutoScroll" with
    | some (PropValue.boolean b) => b
    | _ => true

/-- Modelled from the spec: the implementation of `RadioButton::save`
(src/RadioButton.cpp) is absent from the snapshot; the declaration in
RadioButton.hpp (lines 257-260) documents it as saving the widget as a tree
node; the node records every observable state component of the radio button. -/
def RadioButton.save (rb : RadioButton) : Node :=
  ⟨[("Checked", PropValue.boolean rb.checked),
    ("TextClickable", PropValue.boolean rb.allowTextClick),
    ("Text", PropValue.str rb.text)]⟩

/-- Modelled from the spec: the implementation of `RadioButton::load`
(src/RadioButton.cpp) is absent from the snapshot; the declaration in
RadioButton.hpp (lines 263-266) documents it as loading the widget from a tree
of nodes; each state component is read back from the saved property of the
same name, with the default-constructed value used when a property is missing. -/
def RadioButton.load (n : Node) : RadioButton where
  checked := match n.getProp "Checked" with
    | some (PropValue.boolean b) => b
    | _ => false
  allowTextClick := match n.getProp "TextClickable" with
    | some (PropValue.boolean b) => b
    | _ => true
  text := match n.getProp "Text" with
    | some (PropValue.str s) => s
    | _ => ""

/-- Claim C2: serializing a widget with save() into a tree node of the textual
save format and then loading that node with load() yields a widget whose
observable state equals the original, both for ListBox (items, item ids,
selection, item height, maximum-items limit, text size, auto scroll) and for
RadioButton (checked flag, text, text-click flag). -/
theorem claim_C2_save_load_roundtrip :
    (∀ lb : ListBox, ListBox.load (ListBox.save lb) = lb) ∧
    (∀ rb : RadioButton, RadioButton.load (RadioButton.save rb) = rb) := by
  constructor
  · intro lb
    rfl
  · intro rb
    rfl

theorem ListBox.addItem_maxItems (lb : ListBox) (nm i : String) :
    ((lb.addItem nm i).2).maxItems = lb.maxItems := by
  unfold ListBox.addItem
  split <;> rfl

theorem ListBox.addItem_length_le (lb : ListBox) (m : Nat) (nm i : String)
    (hmax : lb.maxItems = m) (hm : m ≠ 0) (hlen : lb.items.length ≤ m) :
    ((lb.addItem nm i).2).items.length ≤ m := by
  unfold ListBox.addItem
  split
  · exact hlen
  · next hcond =>
    simp only [List.length_append, List.length_cons, List.length_nil]
    rcases Nat.lt_or_ge lb.items.length m with hlt | hge
    · omega
    · exact absurd ⟨Nat.pos_of_ne_zero (hmax ▸ hm), hmax ▸ hge⟩ hcond

theorem ListBox.applyAddItems_length_le (m : Nat) (hm : m ≠ 0)
    (adds : List (String × String)) :
    ∀ lb : ListBox, lb.maxItems = m → lb.items.length ≤ m →
      (lb.applyAddItems adds).items.length ≤ m := by
  induction adds with
  | nil => intro lb _ hlen; exact hlen
  | cons hd tl ih =>
    intro lb hmax hlen
    have h1 : ((lb.addItem hd.1 hd.2).2).maxItems = m := by
      rw [ListBox.addItem_maxItems]; exact hmax
    have h2 := ListBox.addItem_length_le lb m hd.1 hd.2 hmax hm hlen
    exact ih ((lb.addItem hd.1 hd.2).2) h1 h2

theorem ListBox.setMaximumItems_maxItems (lb : ListBox) (m : Nat) :
    (lb.setMaximumItems m).maxItems = m := by
  unfold ListBox.setMaximumItems
  split <;> rfl

theorem ListBox.setMaximumItems_length_le (lb : ListBox) (m : Nat) (hm : m ≠ 0) :
    (lb.setMaximumItems m).items.length ≤ m := by
  unfold ListBox.setMaximumItems
  split
  · simp only [List.length_take]
    omega
  · next hcond =>
    simp only []
    rcases Nat.lt_or_ge lb.items.length m with hlt | hge
    · omega
    · rcases Nat.lt_or_ge m lb.items.length with hlt2 | hge2
      · exact absurd ⟨Nat.pos_of_ne_zero hm, hlt2⟩ hcond
      · exact hge2

/-- Claim C9: for every ListBox with a nonzero maximum item limit m set by
setMaximumItems, addItem returns false and leaves the item list unchanged when
the list already contains m items, so the item count never exceeds m after any
sequence of addItem calls; when the limit is 0 there is no limit. -/
theorem claim_C9_maxItems_invariant (m : Nat) (hm : m ≠ 0) :
    (∀ lb : ListBox, lb.maxItems = m → m ≤ lb.items.length →
      ∀ nm i : String, lb.addItem nm i = (false, lb)) ∧
    (∀ lb : ListBox, ∀ adds : List (String × String),
      ((lb.setMaximumItems m).applyAddItems adds).items.length ≤ m) ∧
    (∀ lb : ListBox, lb.maxItems = 0 → ∀ nm i : String,
      (lb.addItem nm i).1 = true ∧
      ((lb.addItem nm i).2).items = lb.items ++ [nm]) := by
  refine ⟨?_, ?_, ?_⟩
  · intro lb hmax hlen nm i
    unfold ListBox.addItem
    rw [if_pos ⟨hmax ▸ Nat.pos_of_ne_zero hm, hmax ▸ hlen⟩]
  · intro lb adds
    exact ListBox.applyAddItems_length_le m hm adds (lb.setMaximumItems m)
      (ListBox.setMaximumItems_maxItems lb m)
      (ListBox.setMaximumItems_length_le lb m hm)
  · intro lb hmax nm i
    unfold ListBox.addItem
    rw [if_neg (by simp [hmax])]
    exact ⟨rfl, rfl⟩

/-- Witness for claim C9: with limit 2 on a box already holding two items,
a third addItem call fails and changes nothing; with limit 0 an addItem call
succeeds. -/
theorem claim_C9_witness :
    (ListBox.addItem ⟨["a", "b"], ["", ""], -1, 0, 0, 2, true⟩ "c" "" =
      (false, ⟨["a", "b"], ["", ""], -1, 0, 0, 2, true⟩)) ∧
    (ListBox.addItem ⟨["a", "b"], ["", ""], -1, 0, 0, 0, true⟩ "c" "").1 = true := by
  constructor
  · exact (claim_C9_maxItems_invariant 2 (by decide)).1
      ⟨["a", "b"], ["", ""], -1, 0, 0, 2, true⟩ rfl (by decide) "c" ""
  · exact ((claim_C9_maxItems_invariant 2 (by decide)).2.2
      ⟨["a", "b"], ["", ""], -1, 0, 0, 0, true⟩ rfl "c" "").1

/-! ### Slider -/

/-- The value-related state of a Slider, following the member variables
m_Minimum, m_Maximum and m_Value of src/include/TGUI/Slider.hpp
(lines 205-207); all three are unsigned integers. -/
structure Slider where
  minimum : Nat
  maximum : Nat
  value : Nat
  deriving DecidableEq, Repr

/-- The default-constructed slider: the documentation of setMinimum and
setMaximum in Slider.hpp (lines 122-137) states that the default minimum is 0
and the default maximum is 100; the value starts at the minimum. -/
def Slider.default : Slider :=
  ⟨0, 100, 0⟩

/-- Modelled from the spec: the implementation of `Slider::setValue`
(src/Slider.cpp) is absent from the snapshot; the declaration in Slider.hpp
(lines 140-145) documents the value as unable to be smaller than the minimum
or bigger than the maximum, so the argument is clamped into that range. -/
def Slider.setValue (s : Slider) (v : Nat) : Slider :=
  if v < s.minimum then { s with value := s.minimum }
  else if s.maximum < v then { s with value := s.maximum }
  else { s with value := v }

/-- Modelled from the spec: the implementation of `Slider::setMinimum`
(src/Slider.cpp) is absent from the snapshot; the declaration in Slider.hpp
(lines 122-128) documents it as setting a minimum value, the value being
changed to this minimum when it is too small; a maximum below the new minimum
is raised to it so that the range stays well formed. -/
def Slider.setMinimum (s : Slider) (m : Nat) : Slider :=
  let s1 : Slider := { s with minimum := m, maximum := max s.maximum m }
  if s1.value < m then { s1 with value := m } else s1

/-- Modelled from the spec: the implementation of `Slider::setMaximum`
(src/Slider.cpp) is absent from the snapshot; the declaration in Slider.hpp
(lines 131-137) documents it as setting a maximum value, the value being
changed to this maximum when it is too big; a minimum above the new maximum
is lowered to it so that the range stays well formed. -/
def Slider.setMaximum (s : Slider) (m : Nat) : Slider :=
  let s1 : Slider := { s with maximum := m, minimum := min s.minimum m }
  if m < s1.value then { s1 with value := m } else s1

/-- One call in a sequence of setMinimum, setMaximum and setValue calls. -/
inductive SliderOp where
  | setMin : Nat → SliderOp
  | setMax : Nat → SliderOp
  | setVal : Nat → SliderOp
  deriving DecidableEq, Repr

/-- Applies one slider call. -/
def Slider.applyOp (s : Slider) : SliderOp → Slider
  | SliderOp.setMin m => s.setMinimum m
  | SliderOp.setMax m => s.setMaximum m
  | SliderOp.setVal v => s.setValue v

/-- Applies a sequence of slider calls. -/
def Slider.applyOps (s : Slider) (ops : List SliderOp) : Slider :=
  ops.foldl Slider.applyOp s

/-- The range invariant of the slider state. -/
def Slider.inv (s : Slider) : Prop :=
  s.minimum ≤ s.value ∧ s.value ≤ s.maximum

theorem Slider.applyOp_inv (s : Slider) (hs : s.inv) (op : SliderOp) :
    (s.applyOp op).inv := by
  rcases hs with ⟨h1, h2⟩
  cases op with
  | setMin m =>
    simp only [Slider.applyOp, Slider.setMinimum, Slider.inv]
    split <;> constructor <;> simp_all
  | setMax m =>
    simp only [Slider.applyOp, Slider.setMaximum, Slider.inv]
    split <;> constructor <;> simp_all
  | setVal v =>
    simp only [Slider.applyOp, Slider.setValue, Slider.inv]
    split
    · exact ⟨Nat.le_refl _, by simp_all; omega⟩
    · split
      · exact ⟨by simp_all; omega, Nat.le_refl _⟩
      · constructor <;> simp_all

theorem Slider.applyOps_inv (ops : List SliderOp) :
    ∀ s : Slider, s.inv → (s.applyOps ops).inv := by
  induction ops with
  | nil => intro s hs; exact hs
  | cons hd tl ih =>
    intro s hs
    exact ih (s.applyOp hd) (Slider.applyOp_inv s hs hd)

/-- Claim C3: for every Slider and every sequence of setMinimum, setMaximum and
setValue calls, the invariant minimum <= value <= maximum holds afterwards:
setValue clamps a value smaller than the minimum up to the minimum and a value
larger than the maximum down to the maximum, and setMinimum/setMaximum
re-clamp the current value when it falls outside the new range. -/
theorem claim_C3_slider_range_invariant :
    (∀ ops : List SliderOp,
      (Slider.default.applyOps ops).minimum ≤ (Slider.default.applyOps ops).value ∧
      (Slider.default.applyOps ops).value ≤ (Slider.default.applyOps ops).maximum) ∧
    (∀ s : Slider, ∀ v : Nat, v < s.minimum → (s.setValue v).value = s.minimum) ∧
    (∀ s : Slider, ∀ v : Nat, s.maximum < v → s.minimum ≤ s.maximum →
      (s.setValue v).value = s.maximum) ∧
    (∀ s : Slider, ∀ m : Nat, s.value < m → (s.setMinimum m).value = m) ∧
    (∀ s : Slider, ∀ m : Nat, m < s.value → (s.setMaximum m).value = m) := by
  refine ⟨?_, ?_, ?_, ?_, ?_⟩
  · intro ops
    exact Slider.applyOps_inv ops Slider.default (by constructor <;> decide)
  · intro s v hv
    simp [Slider.setValue, hv]
  · intro s v hv hle
    simp only [Slider.setValue]
    rw [if_neg (by omega), if_pos hv]
  · intro s m hv
    simp [Slider.setMinimum, hv]
  · intro s m hv
    simp [Slider.setMaximum, hv]

/-- Witness for claim C3: a slider with range 10..20 clamps setValue 5 up to
10, and setMaximum 12 pulls a value of 15 down to 12. -/
theorem claim_C3_witness :
    (Slider.setValue ⟨10, 20, 15⟩ 5).value = 10 ∧
    (Slider.setMaximum ⟨10, 20, 15⟩ 12).value = 12 := by
  constructor
  · exact claim_C3_slider_range_invariant.2.1 ⟨10, 20, 15⟩ 5 (by decide)
  · exact claim_C3_slider_range_invariant.2.2.2.2 ⟨10, 20, 15⟩ 12 (by decide)

/-! ### MenuBar -/

/-- A menu or (sub) menu item of the menu bar: its text and its child menu
items, following the hierarchical menu state stored in `std::vector<Menu>
m_menus` of src/include/TGUI/Widgets/MenuBar.hpp (line 522). -/
inductive Menu where
  | mk : String → List Menu → Menu

/-- The text of a menu. -/
def Menu.text : Menu → String
  | Menu.mk t _ => t

/-- The child menu items of a menu. -/
def Menu.items : Menu → List Menu
  | Menu.mk _ l => l

/-- Modelled from the spec: the implementation of the menu-item walk of
`MenuBar::addMenuItem` (src/MenuBar.cpp) is absent from the snapshot; the
declaration in MenuBar.hpp (lines 205-221) documents addMenuItem(hierarchy,
createParents) as adding the item described by the hierarchy, creating the
missing parents when createParents is set, and failing when createParents is
false and the parent hierarchy does not exist.  The walk descends one
hierarchy level at a time: the singleton hierarchy appends the item at the
current level, and a longer hierarchy descends into the first existing menu
with the parent's text, creating it when allowed. -/
def insertHierarchy : List Menu → List String → Bool → Bool × List Menu
  | menus, [], _ => (false, menus)
  | menus, [leaf], _ => (true, menus ++ [Menu.mk leaf []])
  | menus, parent :: rest, createParents =>
    match menus.findIdx? (fun m => m.text = parent) with
    | some i =>
      let child := menus.getD i (Menu.mk "" [])
      let result := insertHierarchy child.items rest createParents
      if result.1 then (true, menus.set i (Menu.mk child.text result.2))
      else (false, menus)
    | none =>
      if createParents then
        let result := insertHierarchy [] rest createParents
        if result.1 then (true, menus ++ [Menu.mk parent result.2])
        else (false, menus)
      else (false, menus)

/-- Modelled from the spec: `MenuBar::addMenuItem(hierarchy, createParents)`
per MenuBar.hpp lines 205-221, acting on the stored list of menus; the Bool of
the result is the return value of the call. -/
def MenuBar.addMenuItem (menus : List Menu) (hierarchy : List String)
    (createParents : Bool) : Bool × List Menu :=
  if hierarchy.length < 2 then (false, menus)
  else insertHierarchy menus hierarchy createParents

/-- Whether every menu item named by the list exists, descending from the
given menus along the first menu matching each name. -/
def hierarchyExists : List Menu → List String → Bool
  | _, [] => true
  | menus, name :: rest =>
    match menus.findIdx? (fun m => m.text = name) with
    | some i => hierarchyExists (menus.getD i (Menu.mk "" [])).items rest
    | none => false

theorem insertHierarchy_fst_createParents (h : List String) :
    ∀ menus : List Menu, h ≠ [] → (insertHierarchy menus h true).1 = true := by
  induction h with
  | nil => intro menus hne; exact absurd rfl hne
  | cons hd tl ih =>
    intro menus _
    cases tl with
    | nil => rfl
    | cons hd2 tl2 =>
      unfold insertHierarchy
      cases hfind : menus.findIdx? (fun m => m.text = hd) with
      | some i =>
        simp only [hfind]
        have hres := ih ((menus.getD i (Menu.mk "" [])).items) (by simp)
        simp only [List.getD_eq_getElem?_getD] at hres
        simp [hres]
      | none =>
        simp only [hfind]
        have hres := ih [] (by simp)
        simp [hres]

theorem insertHierarchy_fst_noParents (h : List String) :
    ∀ menus : List Menu, h ≠ [] →
      (insertHierarchy menus h false).1 = hierarchyExists menus h.dropLast := by
  induction h with
  | nil => intro menus hne; exact absurd rfl hne
  | cons hd tl ih =>
    intro menus _
    cases tl with
    | nil => rfl
    | cons hd2 tl2 =>
      unfold insertHierarchy
      rw [List.dropLast_cons_of_ne_nil (by simp)]
      unfold hierarchyExists
      cases hfind : menus.findIdx? (fun m => m.text = hd) with
      | some i =>
        simp only [hfind]
        have hres := ih ((menus.getD i (Menu.mk "" [])).items) (by simp)
        simp only [List.getD_eq_getElem?_getD] at hres
        by_cases hr : (insertHierarchy (menus[i]?.getD (Menu.mk "" [])).items
            (hd2 :: tl2) false).1 = true
        · simp [hr, ← hres]
        · simp only [Bool.not_eq_true] at hr
          simp [hr, ← hres]
      | none =>
        simp [hfind]

theorem insertHierarchy_snd_of_fst_false (h : List String) :
    ∀ (menus : List Menu) (cp : Bool), (insertHierarchy menus h cp).1 = false →
      (insertHierarchy menus h cp).2 = menus := by
  induction h with
  | nil => intro menus cp _; rfl
  | cons hd tl ih =>
    intro menus cp hfalse
    cases tl with
    | nil => simp [insertHierarchy] at hfalse
    | cons hd2 tl2 =>
      unfold insertHierarchy at hfalse ⊢
      cases hfind : menus.findIdx? (fun m => m.text = hd) with
      | some i =>
        simp only [hfind] at hfalse ⊢
        by_cases hr : (insertHierarchy (menus[i]?.getD (Menu.mk "" [])).items
            (hd2 :: tl2) cp).1 = true
        · simp [hr] at hfalse
        · simp only [Bool.not_eq_true] at hr
          simp [hr]
      | none =>
        simp only [hfind] at hfalse ⊢
        cases cp with
        | false => rfl
        | true =>
          by_cases hr : (insertHierarchy [] (hd2 :: tl2) true).1 = true
          · simp [hr] at hfalse
          · simp only [Bool.not_eq_true] at hr
            simp [hr]

/-- Claim C4: for every MenuBar and every hierarchy vector of menu item names,
addMenuItem(hierarchy, createParents) adds the item and returns true, and
returns false (leaving the menu structure unchanged) exactly when
createParents is false and the parent hierarchy does not exist, or when the
hierarchy contains fewer than 2 elements. -/
theorem claim_C4_addMenuItem_spec (menus : List Menu) (hierarchy : List String)
    (createParents : Bool) :
    ((MenuBar.addMenuItem menus hierarchy createParents).1 = false ↔
      hierarchy.length < 2 ∨
        (createParents = false ∧ hierarchyExists menus hierarchy.dropLast = false)) ∧
    ((MenuBar.addMenuItem menus hierarchy createParents).1 = false →
      (MenuBar.addMenuItem menus hierarchy createParents).2 = menus) := by
  unfold MenuBar.addMenuItem
  by_cases hlen : hierarchy.length < 2
  · simp [hlen]
  · have hne : hierarchy ≠ [] := by
      intro hnil
      rw [hnil] at hlen
      exact hlen (by decide)
    rw [if_neg hlen]
    constructor
    · cases createParents with
      | true =>
        rw [insertHierarchy_fst_createParents hierarchy menus hne]
        simp [hlen]
      | false =>
        rw [insertHierarchy_fst_noParents hierarchy menus hne]
        simp [hlen]
    · exact insertHierarchy_snd_of_fst_false hierarchy menus createParents

/-- Witness for claim C4: with createParents false and no existing menus,
adding the item File/Save fails and leaves the (empty) menu structure
unchanged. -/
theorem claim_C4_witness :
    (MenuBar.addMenuItem [] ["File", "Save"] false).1 = false ∧
    (MenuBar.addMenuItem [] ["File", "Save"] false).2 = [] := by
  have h := claim_C4_addMenuItem_spec [] ["File", "Save"] false
  have hfst : (MenuBar.addMenuItem [] ["File", "Save"] false).1 = false :=
    h.1.mpr (Or.inr ⟨rfl, rfl⟩)
  exact ⟨hfst, h.2 hfst⟩

example :
    MenuBar.addMenuItem [] ["File", "Save"] true =
      (true, [Menu.mk "File" [Menu.mk "Save" []]]) := rfl

example : MenuBar.addMenuItem [] ["File", "Save"] false = (false, []) := rfl

example :
    MenuBar.addMenuItem [Menu.mk "File" []] ["File", "Save"] false =
      (true, [Menu.mk "File" [Menu.mk "Save" []]]) := rfl

example : MenuBar.addMenuItem [Menu.mk "File" []] ["File"] true =
    (false, [Menu.mk "File" []]) := rfl

/-! ### ScrollablePanel -/

/-- A two-dimensional size or offset; the C++ code uses sf::Vector2f, embedded
here with rational coordinates. -/
structure Vector2 where
  x : Rat
  y : Rat
  deriving DecidableEq, Repr

/-- The scrolling-related state of a ScrollablePanel, following the member
variables of src/include/TGUI/Widgets/ScrollablePanel.hpp (lines 237-240): the
explicitly set content size, the bottom-right extent of the child widgets, and
the two scrollbars (kept as their current values), together with the size of
the panel itself. -/
structure ScrollablePanel where
  size : Vector2
  contentSize : Vector2
  mostBottomRightPosition : Vector2
  verticalScrollbarValue : Nat
  horizontalScrollbarValue : Nat
  deriving DecidableEq, Repr

/-- Modelled from the spec: the implementation of the content-size logic of
ScrollablePanel (src/ScrollablePanel.cpp) is absent from the snapshot; the
declarations in ScrollablePanel.hpp (lines 48-56, 128-147) document the
content size as the value set by setContentSize, except that when it is set to
(0,0), the default, the content size is determined by the child widgets of the
panel. -/
def ScrollablePanel.visibleContentSize (p : ScrollablePanel) : Vector2 :=
  if p.contentSize = ⟨0, 0⟩ then p.mostBottomRightPosition else p.contentSize

/-- Modelled from the spec: per ScrollablePanel.hpp (lines 128-147), the
scrollbars are displayed when the content size is larger than the size of the
panel; the vertical scrollbar covers the vertical axis. -/
def ScrollablePanel.verticalScrollbarShown (p : ScrollablePanel) : Bool :=
  p.size.y < p.visibleContentSize.y

/-- Modelled from the spec: per ScrollablePanel.hpp (lines 128-147), the
scrollbars are displayed when the content size is larger than the size of the
panel; the horizontal scrollbar covers the horizontal axis. -/
def ScrollablePanel.horizontalScrollbarShown (p : ScrollablePanel) : Bool :=
  p.size.x < p.visibleContentSize.x

/-- Modelled from the spec: the implementation of
`ScrollablePanel::getContentOffset` (src/ScrollablePanel.cpp) is absent from
the snapshot; the declaration in ScrollablePanel.hpp (lines 150-155) documents
it as returning the amount of pixels the child widgets have been shifted,
i.e. the value of the scrollbars. -/
def ScrollablePanel.getContentOffset (p : ScrollablePanel) : Nat × Nat :=
  (p.horizontalScrollbarValue, p.verticalScrollbarValue)

/-- Claim C5: for every ScrollablePanel, scrollbars are displayed exactly when
the content size is larger than the size of the panel; when the content size
is set to (0,0) (the default) the content size is determined by the child
widgets; and getContentOffset returns the number of pixels the child widgets
have been shifted, i.e. the current values of the two scrollbars. -/
theorem claim_C5_scrollablePanel_spec (p : ScrollablePanel) :
    (p.verticalScrollbarShown = true ↔ p.size.y < p.visibleContentSize.y) ∧
    (p.horizontalScrollbarShown = true ↔ p.size.x < p.visibleContentSize.x) ∧
    (p.contentSize = ⟨0, 0⟩ → p.visibleContentSize = p.mostBottomRightPosition) ∧
    (p.contentSize ≠ ⟨0, 0⟩ → p.visibleContentSize = p.contentSize) ∧
    p.getContentOffset = (p.horizontalScrollbarValue, p.verticalScrollbarValue) := by
  refine ⟨?_, ?_, ?_, ?_, rfl⟩
  · simp [ScrollablePanel.verticalScrollbarShown]
  · simp [ScrollablePanel.horizontalScrollbarShown]
  · intro h
    simp [ScrollablePanel.visibleContentSize, h]
  · intro h
    simp [ScrollablePanel.visibleContentSize, h]

/-- Witness for claim C5: a panel of size 100x100 with content size (0,0) and
children extending to 150x50 shows only the vertical axis as not overflowing
and the content offset equals the scrollbar values. -/
theorem claim_C5_witness :
    let p : ScrollablePanel := ⟨⟨100, 100⟩, ⟨0, 0⟩, ⟨150, 50⟩, 3, 7⟩
    p.visibleContentSize = p.mostBottomRightPosition ∧
    p.getContentOffset = (7, 3) := by
  intro p
  exact ⟨(claim_C5_scrollablePanel_spec p).2.2.1 (by decide),
         (claim_C5_scrollablePanel_spec p).2.2.2.2⟩

/-! ### Signal emission on widget events -/

/-- An emitted signal occurrence: the signal name together with the string
parameter passed to the handlers. -/
structure Emission where
  signalName : String
  arg : String
  deriving DecidableEq, Repr

/-- Modelled from the spec: the implementation of
`ListBox::updateSelectedItem` (src/ListBox.cpp) is absent from the snapshot;
per ListBox.hpp (lines 594-597 and 618) it updates which item is selected, and
when an item becomes selected the "ItemSelected" signal (the public member
`onItemSelect`) is emitted with the selected item as parameter (the empty
string when the selection is cleared).  The function returns the new state
together with the list of emitted signals. -/
def ListBox.updateSelectedItem (lb : ListBox) (item : Int) : ListBox × List Emission :=
  if lb.selectedItem = item then (lb, [])
  else
    let lb2 : ListBox := { lb with selectedItem := item }
    if 0 ≤ item then
      (lb2, [⟨"ItemSelected", lb.items.getD item.toNat ""⟩])
    else
      (lb2, [⟨"ItemSelected", ""⟩])

/-- The observable state of a MessageBox, following the member variables of
src/include/TGUI/Widgets/MessageBox.hpp (lines 253-258): its text and the
captions of its buttons. -/
structure MessageBox where
  text : String
  buttons : List String
  deriving DecidableEq, Repr

/-- Modelled from the spec: the implementation of the button-press forwarding
of MessageBox (`connectButtonPressSignal`, src/MessageBox.cpp) is absent from
the snapshot; per MessageBox.hpp (lines 238-247) pressing one of the buttons
emits the "ButtonPressed" signal (the public member `onButtonPress`) with the
caption of the pressed button as parameter; pressing outside any button emits
nothing. -/
def MessageBox.pressButton (mb : MessageBox) (idx : Nat) : List Emission :=
  if idx < mb.buttons.length then
    [⟨"ButtonPressed", mb.buttons.getD idx ""⟩]
  else
    []

/-- Claim C6: whenever a widget event occurs, the corresponding named signal
fires: for every ListBox, when an item becomes selected the "ItemSelected"
signal (onItemSelect) is emitted with the selected item as parameter, and for
every MessageBox, when one of its buttons is pressed the "ButtonPressed"
signal (onButtonPress) is emitted with the caption of the pressed button. -/
theorem claim_C6_signals_fire_on_events :
    (∀ (lb : ListBox) (i : Int), lb.selectedItem ≠ i → 0 ≤ i →
      (lb.updateSelectedItem i).2 = [⟨"ItemSelected", lb.items.getD i.toNat ""⟩] ∧
      ((lb.updateSelectedItem i).1).selectedItem = i) ∧
    (∀ (mb : MessageBox) (idx : Nat), idx < mb.buttons.length →
      mb.pressButton idx = [⟨"ButtonPressed", mb.buttons.getD idx ""⟩]) := by
  constructor
  · intro lb i hne hnonneg
    unfold ListBox.updateSelectedItem
    rw [if_neg hne, if_pos hnonneg]
    exact ⟨rfl, rfl⟩
  · intro mb idx hlt
    unfold MessageBox.pressButton
    rw [if_pos hlt]

/-- Witness for claim C6: selecting item 1 of a two-item list box emits
ItemSelected with "b", and pressing button 0 of a Yes/No message box emits
ButtonPressed with "Yes". -/
theorem claim_C6_witness :
    (ListBox.updateSelectedItem ⟨["a", "b"], ["", ""], -1, 0, 0, 0, true⟩ 1).2 =
      [⟨"ItemSelected", "b"⟩] ∧
    MessageBox.pressButton ⟨"Quit?", ["Yes", "No"]⟩ 0 =
      [⟨"ButtonPressed", "Yes"⟩] := by
  constructor
  · exact (claim_C6_signals_fire_on_events.1 ⟨["a", "b"], ["", ""], -1, 0, 0, 0, true⟩ 1
      (by decide) (by decide)).1
  · exact claim_C6_signals_fire_on_events.2 ⟨"Quit?", ["Yes", "No"]⟩ 0 (by decide)

/-! ### Renderer sharing and copy-on-write -/

/-- The style properties held by a renderer, as name-value pairs. -/
abbrev RendererProps := List (String × String)

/-- Looks a key up in an association list over natural-number keys. -/
def assocLookup (l : List (Nat × α)) (k : Nat) : Option α :=
  (l.find? (fun p => p.1 = k)).map Prod.snd

/-- Replaces the value bound to a key in an association list (every binding of
the key is replaced, so the first lookup sees the new value). -/
def assocSet (l : List (Nat × α)) (k : Nat) (v : α) : List (Nat × α) :=
  l.map (fun p => if p.1 = k then (k, v) else p)

/-- The renderer state of a widget tree: which renderer object every widget
refers to, the property set of every renderer object, and the next unused
renderer identity.  Renderers are the objects of the glossary entry
"**Renderer**: an object holding style properties ... shared or copied per
widget"; several widgets may refer to the same renderer object. -/
structure RendererWorld where
  rendererData : List (Nat × RendererProps)
  widgetRenderer : List (Nat × Nat)
  nextRendererId : Nat
  deriving DecidableEq, Repr

/-- Modelled from the spec: the implementation of `Widget::getSharedRenderer`
(src/Widget.cpp) is absent from the snapshot; the declarations in ListBox.hpp
(lines 76-81) and RadioButton.hpp (lines 81-86) document it as returning a
pointer to the renderer that may be shared with other widgets using the same
renderer: the widget's current renderer reference, unchanged. -/
def RendererWorld.getSharedRenderer (w : RendererWorld) (widget : Nat) : Option Nat :=
  assocLookup w.widgetRenderer widget

/-- Modelled from the spec: the implementation of `Widget::getRenderer`
(src/Widget.cpp) is absent from the snapshot; the declarations in ListBox.hpp
(lines 83-89) and RadioButton.hpp (lines 88-93) document that after calling
this function the widget has its own copy of the renderer and it is no longer
shared: the renderer's properties are copied into a fresh renderer object and
the widget is repointed to the copy. -/
def RendererWorld.getRenderer (w : RendererWorld) (widget : Nat) : RendererWorld :=
  match assocLookup w.widgetRenderer widget with
  | none => w
  | some rid =>
    let props := (assocLookup w.rendererData rid).getD []
    { rendererData := (w.nextRendererId, props) :: w.rendererData,
      widgetRenderer := assocSet w.widgetRenderer widget w.nextRendererId,
      nextRendererId := w.nextRendererId + 1 }

/-- Sets a style property through the renderer currently referenced by the
given widget (renderer property cascading then applies the change to every
widget sharing that renderer object). -/
def RendererWorld.setProperty (w : RendererWorld) (widget : Nat)
    (prop val : String) : RendererWorld :=
  match assocLookup w.widgetRenderer widget with
  | none => w
  | some rid =>
    let props := (assocLookup w.rendererData rid).getD []
    { w with rendererData := assocSet w.rendererData rid ((prop, val) :: props) }

/-- The style properties a widget currently observes: those of the renderer
object it references. -/
def RendererWorld.widgetProps (w : RendererWorld) (widget : Nat) : RendererProps :=
  match assocLookup w.widgetRenderer widget with
  | none => []
  | some rid => (assocLookup w.rendererData rid).getD []

/-- Every renderer identity in use is below nextRendererId, so fresh copies
never collide with existing renderer objects. -/
def RendererWorld.freshIds (w : RendererWorld) : Prop :=
  (∀ p ∈ w.rendererData, p.1 < w.nextRendererId) ∧
  (∀ p ∈ w.widgetRenderer, p.2 < w.nextRendererId)

theorem assocLookup_set_ne (l : List (Nat × α)) (k k2 : Nat) (v : α)
    (hne : k2 ≠ k) : assocLookup (assocSet l k v) k2 = assocLookup l k2 := by
  induction l with
  | nil => rfl
  | cons hd tl ih =>
    by_cases hk : hd.1 = k
    · simp only [assocSet, assocLookup, List.map_cons, if_pos hk, List.find?_cons] at ih ⊢
      rw [show (decide (k = k2)) = false from by simp [Ne.symm hne]]
      rw [show (decide (hd.1 = k2)) = false from by rw [hk]; simp [Ne.symm hne]]
      exact ih
    · simp only [assocSet, assocLookup, List.map_cons, if_neg hk, List.find?_cons] at ih ⊢
      cases hdk : decide (hd.1 = k2) with
      | true => rfl
      | false => exact ih

theorem assocLookup_set_eq (l : List (Nat × α)) (k : Nat) (v : α)
    (hmem : ∃ v0, assocLookup l k = some v0) :
    assocLookup (assocSet l k v) k = some v := by
  induction l with
  | nil => rcases hmem with ⟨v0, hv0⟩; simp [assocLookup] at hv0
  | cons hd tl ih =>
    by_cases hk : hd.1 = k
    · simp [assocSet, assocLookup, List.map_cons, if_pos hk, List.find?_cons]
    · simp only [assocSet, assocLookup, List.map_cons, if_neg hk,
        List.find?_cons] at hmem ih ⊢
      rw [show (decide (hd.1 = k)) = false from by simp [hk]] at hmem ⊢
      exact ih hmem

theorem assocLookup_cons_ne (l : List (Nat × α)) (k k2 : Nat) (v : α)
    (hne : k2 ≠ k) : assocLookup ((k, v) :: l) k2 = assocLookup l k2 := by
  simp only [assocLookup, List.find?_cons]
  rw [show (decide (k = k2)) = false from by simp [Ne.symm hne]]

theorem assocLookup_cons_eq (l : List (Nat × α)) (k : Nat) (v : α) :
    assocLookup ((k, v) :: l) k = some v := by
  simp [assocLookup, List.find?_cons]

/-- Claim C7: a widget's renderer is shared until copied on demand:
getSharedRenderer returns a renderer that may be shared with other widgets,
while after a widget calls getRenderer the widget has its own copy of the
renderer that is no longer shared, so subsequent property changes through that
renderer affect only this widget and leave the renderer state of every other
widget that previously shared it unchanged. -/
theorem claim_C7_renderer_copy_on_write (w : RendererWorld) (w1 w2 rid : Nat)
    (prop val : String) (hne : w1 ≠ w2)
    (h1 : assocLookup w.widgetRenderer w1 = some rid)
    (h2 : assocLookup w.widgetRenderer w2 = some rid)
    (hfresh : rid < w.nextRendererId) :
    w.getSharedRenderer w1 = w.getSharedRenderer w2 ∧
    (w.getRenderer w1).getSharedRenderer w1 ≠ (w.getRenderer w1).getSharedRenderer w2 ∧
    (w.getRenderer w1).widgetProps w1 = w.widgetProps w1 ∧
    ((w.getRenderer w1).setProperty w1 prop val).widgetProps w2 = w.widgetProps w2 ∧
    ((w.getRenderer w1).setProperty w1 prop val).widgetProps w1 =
      (prop, val) :: w.widgetProps w1 := by
  have hrid_ne : rid ≠ w.nextRendererId := Nat.ne_of_lt hfresh
  have hL1 : assocLookup (assocSet w.widgetRenderer w1 w.nextRendererId) w1 =
      some w.nextRendererId :=
    assocLookup_set_eq w.widgetRenderer w1 w.nextRendererId ⟨rid, h1⟩
  have hL2 : assocLookup (assocSet w.widgetRenderer w1 w.nextRendererId) w2 =
      some rid := by
    rw [assocLookup_set_ne w.widgetRenderer w1 w2 w.nextRendererId (Ne.symm hne)]
    exact h2
  have hgr : w.getRenderer w1 =
      { rendererData := (w.nextRendererId,
          (assocLookup w.rendererData rid).getD []) :: w.rendererData,
        widgetRenderer := assocSet w.widgetRenderer w1 w.nextRendererId,
        nextRendererId := w.nextRendererId + 1 } := by
    simp only [RendererWorld.getRenderer, h1]
  have hRDnew : assocLookup ((w.nextRendererId,
      (assocLookup w.rendererData rid).getD []) :: w.rendererData)
      w.nextRendererId = some ((assocLookup w.rendererData rid).getD []) :=
    assocLookup_cons_eq w.rendererData w.nextRendererId _
  have hRDrid : assocLookup ((w.nextRendererId,
      (assocLookup w.rendererData rid).getD []) :: w.rendererData) rid =
      assocLookup w.rendererData rid :=
    assocLookup_cons_ne w.rendererData w.nextRendererId rid _ hrid_ne
  have hset : (w.getRenderer w1).setProperty w1 prop val =
      { rendererData := assocSet ((w.nextRendererId,
          (assocLookup w.rendererData rid).getD []) :: w.rendererData)
          w.nextRendererId
          ((prop, val) :: (assocLookup w.rendererData rid).getD []),
        widgetRenderer := assocSet w.widgetRenderer w1 w.nextRendererId,
        nextRendererId := w.nextRendererId + 1 } := by
    rw [hgr]
    simp only [RendererWorld.setProperty, hL1, hRDnew, Option.getD_some]
  refine ⟨?_, ?_, ?_, ?_, ?_⟩
  · simp only [RendererWorld.getSharedRenderer, h1, h2]
  · rw [hgr]
    simp only [RendererWorld.getSharedRenderer, hL1, hL2]
    intro hcontra
    exact hrid_ne (Option.some.inj hcontra).symm
  · rw [hgr]
    simp only [RendererWorld.widgetProps, hL1, hL2, hRDnew, h1, Option.getD_some]
  · rw [hset]
    simp only [RendererWorld.widgetProps, hL2, h2]
    rw [assocLookup_set_ne _ w.nextRendererId rid _ hrid_ne, hRDrid]
  · rw [hset]
    simp only [RendererWorld.widgetProps, hL1, h1]
    rw [assocLookup_set_eq _ w.nextRendererId _
      ⟨(assocLookup w.rendererData rid).getD [], hRDnew⟩]
    rfl

/-- Witness for claim C7: two widgets 0 and 1 share renderer 5 holding one
property; widget 0 copies its renderer and sets a property; widget 1 still
observes the original property set. -/
theorem claim_C7_witness :
    let w : RendererWorld :=
      ⟨[(5, [("textcolor", "red")])], [(0, 5), (1, 5)], 6⟩
    ((w.getRenderer 0).setProperty 0 "textcolor" "blue").widgetProps 1 =
      w.widgetProps 1 ∧
    ((w.getRenderer 0).setProperty 0 "textcolor" "blue").widgetProps 0 =
      ("textcolor", "blue") :: w.widgetProps 0 := by
  intro w
  have h := claim_C7_renderer_copy_on_write w 0 1 5 "textcolor" "blue"
    (by decide) (by simp [w, assocLookup]) (by simp [w, assocLookup]) (by decide)
  exact ⟨h.2.2.2.1, h.2.2.2.2⟩

/-! ### GuiSFML event handling -/

/-- An input event polled from the window, following the sf::Event cases the
gui forwards to the widgets. -/
inductive Event where
  | mouseButtonPressed : Int → Int → Event
  | mouseButtonReleased : Int → Int → Event
  | mouseMoved : Int → Int → Event
  | keyPressed : Nat → Event
  | textEntered : Char → Event
  | mouseWheelScrolled : Int → Event
  deriving DecidableEq, Repr

/-- A widget as seen by the gui's event loop: whether it consumes a given
event (by its type-specific event handlers). -/
structure EventWidget where
  consumes : Event → Bool

/-- Modelled from the spec: the implementation of `GuiSFML::handleEvent`
(src/Backends/SFML/GuiSFML.cpp) is absent from the snapshot; the declaration
in GuiSFML.hpp (lines 83-99) documents it as passing the event to the widgets
and returning whether the event has been consumed, returning false when the
event was ignored by all widgets. -/
def handleEvent (widgets : List EventWidget) (event : Event) : Bool :=
  widgets.any (fun w => w.consumes event)

/-- Claim C8: for every event passed to GuiSFML::handleEvent, the function
returns true when the event was consumed by some widget and returns false
exactly when the event was ignored by all widgets. -/
theorem claim_C8_handleEvent_consumed (widgets : List EventWidget) (event : Event) :
    (handleEvent widgets event = true ↔
      ∃ w ∈ widgets, w.consumes event = true) ∧
    (handleEvent widgets event = false ↔
      ∀ w ∈ widgets, w.consumes event = false) := by
  constructor
  · simp [handleEvent, List.any_eq_true]
  · simp [handleEvent, List.any_eq_false]

/-- Witness for claim C8: a gui whose only widget consumes every event reports
the event as consumed, and a gui without widgets reports it as ignored. -/
theorem claim_C8_witness :
    handleEvent [⟨fun _ => true⟩] (Event.keyPressed 0) = true ∧
    handleEvent [] (Event.keyPressed 0) = false := by
  constructor
  · exact (claim_C8_handleEvent_consumed [⟨fun _ => true⟩]
      (Event.keyPressed 0)).1.mpr ⟨⟨fun _ => true⟩, by simp, rfl⟩
  · exact (claim_C8_handleEvent_consumed [] (Event.keyPressed 0)).2.mpr
      (by simp)

/-! ### RadioButton mutual exclusion in a container -/

/-- Modelled from the spec: the implementation of `RadioButton::setChecked`
(src/RadioButton.cpp) is absent from the snapshot; the declaration in
RadioButton.hpp (lines 140-146) documents it as checking or unchecking the
radio button, and when it is checked it tells its parent to uncheck all the
other radio buttons.  The parent container is embedded as the list of its
radio-button children and the acting button as its index in that list. -/
def containerSetChecked (siblings : List RadioButton) (i : Nat)
    (checked : Bool) : List RadioButton :=
  if checked then
    (siblings.map (fun rb => { rb with checked := false })).set i
      { (siblings.getD i ⟨false, true, ""⟩) with checked := true }
  else
    siblings.set i { (siblings.getD i ⟨false, true, ""⟩) with checked := false }

/-- The number of checked radio buttons among the siblings. -/
def countChecked (siblings : List RadioButton) : Nat :=
  (siblings.filter (fun rb => rb.isChecked)).length

/-- One setChecked call in a container: the index of the radio button and the
flag passed to it. -/
def containerApplyOps (siblings : List RadioButton)
    (ops : List (Nat × Bool)) : List RadioButton :=
  ops.foldl (fun s op => containerSetChecked s op.1 op.2) siblings

theorem countChecked_cons (hd : RadioButton) (tl : List RadioButton) :
    countChecked (hd :: tl) =
      (if hd.isChecked then 1 else 0) + countChecked tl := by
  simp only [countChecked, List.filter_cons]
  split <;> simp [Nat.add_comm]

theorem countChecked_set_le (l : List RadioButton) (i : Nat) (x : RadioButton) :
    countChecked (l.set i x) ≤
      countChecked l + (if x.isChecked then 1 else 0) := by
  induction l generalizing i with
  | nil => simp [countChecked]
  | cons hd tl ih =>
    cases i with
    | zero =>
      rw [List.set_cons_zero, countChecked_cons, countChecked_cons]
      omega
    | succ n =>
      rw [List.set_cons_succ, countChecked_cons, countChecked_cons]
      have := ih n
      omega

theorem countChecked_map_unchecked (l : List RadioButton) :
    countChecked (l.map (fun rb => { rb with checked := false })) = 0 := by
  induction l with
  | nil => rfl
  | cons hd tl ih =>
    rw [List.map_cons, countChecked_cons, ih]
    simp [RadioButton.isChecked]

theorem countChecked_set_of_zero (l : List RadioButton) (i : Nat) (x : RadioButton)
    (hi : i < l.length) (hl : countChecked l = 0) (hx : x.isChecked = true) :
    countChecked (l.set i x) = 1 := by
  induction l generalizing i with
  | nil => simp at hi
  | cons hd tl ih =>
    rw [countChecked_cons] at hl
    cases i with
    | zero =>
      rw [List.set_cons_zero, countChecked_cons, hx]
      simp only [if_true]
      omega
    | succ n =>
      rw [List.set_cons_succ, countChecked_cons]
      have := ih n (by simpa using hi) (by omega)
      omega

theorem containerSetChecked_le_one (s : List RadioButton) (i : Nat) (c : Bool)
    (hs : countChecked s ≤ 1) :
    countChecked (containerSetChecked s i c) ≤ 1 := by
  unfold containerSetChecked
  cases c with
  | true =>
    rw [if_pos rfl]
    have h1 := countChecked_set_le
      (s.map (fun rb => { rb with checked := false })) i
      { (s.getD i ⟨false, true, ""⟩) with checked := true }
    rw [countChecked_map_unchecked] at h1
    split at h1 <;> omega
  | false =>
    rw [if_neg (by simp)]
    have h1 := countChecked_set_le s i
      { (s.getD i ⟨false, true, ""⟩) with checked := false }
    rw [if_neg (by simp [RadioButton.isChecked])] at h1
    omega

theorem containerApplyOps_le_one (ops : List (Nat × Bool)) :
    ∀ s : List RadioButton, countChecked s ≤ 1 →
      countChecked (containerApplyOps s ops) ≤ 1 := by
  induction ops with
  | nil => intro s hs; exact hs
  | cons hd tl ih =>
    intro s hs
    exact ih (containerSetChecked s hd.1 hd.2)
      (containerSetChecked_le_one s hd.1 hd.2 hs)

theorem getD_set_ne (l : List RadioButton) (i j : Nat) (x d : RadioButton)
    (hne : j ≠ i) : (l.set i x).getD j d = l.getD j d := by
  induction l generalizing i j with
  | nil => rfl
  | cons hd tl ih =>
    cases i with
    | zero =>
      cases j with
      | zero => exact absurd rfl hne
      | succ m => rw [List.set_cons_zero, List.getD_cons_succ, List.getD_cons_succ]
    | succ n =>
      cases j with
      | zero => rw [List.set_cons_succ, List.getD_cons_zero, List.getD_cons_zero]
      | succ m =>
        rw [List.set_cons_succ, List.getD_cons_succ, List.getD_cons_succ]
        exact ih n m (fun h => hne (by rw [h]))

theorem getD_map_unchecked (l : List RadioButton) (j : Nat) :
    ((l.map (fun rb : RadioButton => { rb with checked := false })).getD j
      (⟨false, true, ""⟩ : RadioButton)).isChecked = false := by
  induction l generalizing j with
  | nil => rfl
  | cons hd tl ih =>
    cases j with
    | zero =>
      rw [List.map_cons, List.getD_cons_zero]
      rfl
    | succ m =>
      rw [List.map_cons, List.getD_cons_succ]
      exact ih m

/-- Claim C10: radio buttons are mutually exclusive within their parent: when
setChecked(true) is called on a RadioButton that has a parent container, all
other radio buttons in that parent are unchecked, so at most one radio button
among siblings is checked at any time, and isChecked reports exactly the
stored checked flag. -/
theorem claim_C10_radio_mutual_exclusion (siblings : List RadioButton) (i : Nat) :
    (∀ rb : RadioButton, rb.isChecked = rb.checked) ∧
    (∀ j : Nat, j ≠ i →
      ((containerSetChecked siblings i true).getD j ⟨false, true, ""⟩).isChecked
        = false) ∧
    (i < siblings.length → countChecked (containerSetChecked siblings i true) = 1) ∧
    (∀ s : List RadioButton, countChecked s ≤ 1 → ∀ ops : List (Nat × Bool),
      countChecked (containerApplyOps s ops) ≤ 1) := by
  refine ⟨fun _ => rfl, ?_, ?_, ?_⟩
  · intro j hj
    unfold containerSetChecked
    rw [if_pos rfl, getD_set_ne _ i j _ _ hj]
    exact getD_map_unchecked siblings j
  · intro hi
    unfold containerSetChecked
    rw [if_pos rfl]
    exact countChecked_set_of_zero _ i _ (by simpa using hi)
      (countChecked_map_unchecked siblings) rfl
  · intro s hs ops
    exact containerApplyOps_le_one ops s hs

/-- Witness for claim C10: in a container of three radio buttons where the
third is checked, checking the first leaves exactly one checked button, and
the second stays unchecked. -/
theorem claim_C10_witness :
    countChecked (containerSetChecked
      [⟨false, true, "a"⟩, ⟨false, true, "b"⟩, ⟨true, true, "c"⟩] 0 true) = 1 ∧
    ((containerSetChecked
      [⟨false, true, "a"⟩, ⟨false, true, "b"⟩, ⟨true, true, "c"⟩] 0 true).getD 1
        ⟨false, true, ""⟩).isChecked = false := by
  constructor
  · exact (claim_C10_radio_mutual_exclusion
      [⟨false, true, "a"⟩, ⟨false, true, "b"⟩, ⟨true, true, "c"⟩] 0).2.2.1
      (by decide)
  · exact (claim_C10_radio_mutual_exclusion
      [⟨false, true, "a"⟩, ⟨false, true, "b"⟩, ⟨true, true, "c"⟩] 0).2.1 1
      (by decide)

end TGUI
